import Mathlib

/-!
Verification of the bouncing-balls canvas animation core (`src/lib.rs`).

Modelling conventions:
* `f64` values are modelled as exact rationals (`ℚ`); every operation the
  core performs on them (`+`, `-`, `*`, comparison) is translated verbatim.
* `u32` surface dimensions are modelled as `ℕ`, cast to `ℚ` where the code
  casts to `f64`.
* The external random source (`rand::thread_rng().gen_range(low, high)`,
  wrapped by `random_number`) is modelled as a call-indexed oracle
  `RandSrc : Nat → ℚ → ℚ → ℚ`: the `i`-th sampling call with requested
  range `[lo, hi)` returns `rng i lo hi`.  The sampling calls a run of
  `generate_ball` makes are numbered in the order the Rust code
  evaluates them.
* The 2D drawing context (`web_sys::CanvasRenderingContext2d`) is modelled
  as a trace of drawing commands (`Cmd`).  The only fallible drawing call
  the core makes is `context.arc(...)`, whose success is decided by an
  oracle `arcOk`; the Rust code unwraps the result, so a failing arc call
  aborts the render pass at that point (no later command runs).
-/

/-- Modelled from the spec: `Vector2D = {x: float64, y: float64}`, a pure
value type (the repository's `vec2d.rs` is not among the provided sources,
but every use in `lib.rs` constructs and reads exactly these two fields). -/
structure Vec2d where
  x : ℚ
  y : ℚ
deriving DecidableEq, Repr

/-- `struct Ball` from `lib.rs`. -/
structure Ball where
  position : Vec2d
  direction : Vec2d
  speed : ℚ
  size : ℚ
  is_inverse : Bool
  color : String
deriving DecidableEq, Repr

/-- `struct AppOptions` from `lib.rs`: `canvas_id` is required by
deserialization, `window_x`/`window_y` are `Option<u32>`. -/
structure AppOptions where
  canvas_id : String
  window_x : Option ℕ
  window_y : Option ℕ
deriving DecidableEq, Repr

/-- `struct App` from `lib.rs`.  The `context` handle is external state and
is modelled separately as a command trace, so it is not a field here. -/
structure App where
  window_x : ℕ
  window_y : ℕ
  initial_n_balls : ℕ
  balls : List Ball
deriving DecidableEq, Repr

/-- The call-indexed random-source oracle (external capability). -/
def RandSrc : Type := ℕ → ℚ → ℚ → ℚ

/-- A random source is well-behaved when every sampling call with a
nonempty requested range `[lo, hi)` returns a value in that range. -/
def RandSrc.InRange (rng : RandSrc) : Prop :=
  ∀ i lo hi, lo < hi → lo ≤ rng i lo hi ∧ rng i lo hi < hi

/-- `ball_color()` from `lib.rs`: four sampling calls (R, G, B in
`[8, 248)`, opacity in `[0.5, 1.0)`), formatted into an `rgb(...)` string.
`k` is the index of its first sampling call. -/
def ball_color (rng : RandSrc) (k : ℕ) : String :=
  let red := toString (rng k 8 248)
  let green := toString (rng (k + 1) 8 248)
  let blue := toString (rng (k + 2) 8 248)
  let opacity := toString (rng (k + 3) (1/2) 1)
  "rgb(" ++ red ++ ", " ++ green ++ ", " ++ blue ++ ", " ++ opacity ++ ")"

/-- `bg_color()` from `lib.rs`. -/
def bg_color : String := "rgb(0, 0, 0, 1)"

/-- `App::generate_ball` from `lib.rs`.  `k` is the index of the first
sampling call this run makes; the eleven calls are numbered in Rust
evaluation order (position.x, position.y, direction.x, direction.y,
speed, size, is_inverse, then the four calls of `ball_color`). -/
def generate_ball (rng : RandSrc) (k : ℕ) (wx wy : ℕ) : Ball :=
  { position :=
      { x := rng k 0 (wx : ℚ)
        y := rng (k + 1) 0 (wy : ℚ) }
    direction :=
      { x := rng (k + 2) (-(1/2)) (1/2)
        y := rng (k + 3) (-(1/2)) (1/2) }
    speed := rng (k + 4) 5 10
    size := rng (k + 5) 50 100
    is_inverse := if rng (k + 6) (-1) 1 > 0 then true else false
    color := ball_color rng (k + 7) }

/-- `App::init` from `lib.rs`: discards the previous collection and fills
it with `initial_n_balls` freshly generated balls (ball `i` starts at
sampling call `11 * i`).  The canvas resizing calls touch only the
external surface. -/
def App.init (rng : RandSrc) (app : App) : App :=
  { app with
    balls :=
      (List.range app.initial_n_balls).map
        (fun i => generate_ball rng (11 * i) app.window_x app.window_y) }

/-- `App::new` from `lib.rs`: `opts.window_x.unwrap()` /
`opts.window_y.unwrap()` panic when the option is missing; the panic is
modelled as `none`.  (`context2d(&opts.canvas_id)` acquires the external
surface and is not part of the state modelled here.) -/
def App.new (opts : AppOptions) : Option App :=
  match opts.window_x, opts.window_y with
  | some x, some y =>
      some { window_x := x, window_y := y, initial_n_balls := 10, balls := [] }
  | _, _ => none

/-- The per-ball body of the `App::moves` loop from `lib.rs`: add
`direction * speed` to `position` component-wise, then, only when
`is_inverse` is set, per axis: if the new coordinate is `< 0` or greater
than the surface extent, subtract `direction` (not `direction * speed`)
on that axis and negate `direction` on that axis. -/
def movesBall (wx wy : ℕ) (b : Ball) : Ball :=
  let px := b.position.x + b.direction.x * b.speed
  let py := b.position.y + b.direction.y * b.speed
  if b.is_inverse then
    let px' := if px < 0 ∨ px > (wx : ℚ) then px - b.direction.x else px
    let dx' := if px < 0 ∨ px > (wx : ℚ) then -b.direction.x else b.direction.x
    let py' := if py < 0 ∨ py > (wy : ℚ) then py - b.direction.y else py
    let dy' := if py < 0 ∨ py > (wy : ℚ) then -b.direction.y else b.direction.y
    { b with position := { x := px', y := py' }, direction := { x := dx', y := dy' } }
  else
    { b with position := { x := px, y := py } }

/-- `App::moves` from `lib.rs`: the loop body applied to every ball in
place. -/
def App.moves (app : App) : App :=
  { app with balls := app.balls.map (movesBall app.window_x app.window_y) }

/-- One drawing command issued to the 2D context. -/
inductive Cmd where
  | save : Cmd
  | restore : Cmd
  | setFillStyle : String → Cmd
  | fillRect : ℚ → ℚ → ℚ → ℚ → Cmd
  | beginPath : Cmd
  | arc : ℚ → ℚ → ℚ → ℚ → ℚ → Cmd
  | fill : Cmd
deriving DecidableEq, Repr

/-- The exact rational value of the IEEE-754 double `std::f64::consts::PI`
(`0x400921FB54442D18`). -/
def pi64 : ℚ := 884279719003555 / 281474976710656

/-- The oracle deciding whether a `context.arc(x, y, r, a0, a1)` call
succeeds (external drawing-surface behavior). -/
def ArcOracle : Type := ℚ → ℚ → ℚ → ℚ → ℚ → Bool

/-- `App::render_balls` from `lib.rs`: per ball, `begin_path`, `arc`
(full `0..2π`), set the fill style to the ball's color, `fill`.  The
`arc` result is unwrapped, so a failing arc call stops the pass right
there; the returned flag records whether every drawing call succeeded. -/
def render_balls (arcOk : ArcOracle) : List Ball → List Cmd × Bool
  | [] => ([], true)
  | b :: rest =>
    let acmd := Cmd.arc b.position.x b.position.y b.size 0 (pi64 * 2)
    if arcOk b.position.x b.position.y b.size 0 (pi64 * 2) then
      let tail := render_balls arcOk rest
      (Cmd.beginPath :: acmd :: Cmd.setFillStyle b.color :: Cmd.fill :: tail.1,
       tail.2)
    else
      ([Cmd.beginPath, acmd], false)

/-- `App::render_bg` from `lib.rs`. -/
def render_bg (app : App) : List Cmd :=
  [Cmd.setFillStyle bg_color,
   Cmd.fillRect 0 0 (app.window_x : ℚ) (app.window_y : ℚ)]

/-- `App::render` from `lib.rs`: `save`, background, balls, `restore`.
The `restore` call is only reached when no drawing call panicked. -/
def App.render (arcOk : ArcOracle) (app : App) : List Cmd × Bool :=
  let rb := render_balls arcOk app.balls
  if rb.2 then
    (Cmd.save :: render_bg app ++ rb.1 ++ [Cmd.restore], true)
  else
    (Cmd.save :: render_bg app ++ rb.1, false)

/-- `App::on_animation_frame` from `lib.rs`: one motion update, then one
render pass, then `true`.  A drawing panic during the render pass never
returns, modelled as `none`. -/
def App.on_animation_frame (arcOk : ArcOracle) (app : App) :
    App × List Cmd × Option Bool :=
  let app' := app.moves
  let r := app'.render arcOk
  (app', r.1, if r.2 then some true else none)

/-! Shared sample values used by witnesses and counterexamples. -/

/-- A random source returning the midpoint of every requested range. -/
def midRng : RandSrc := fun _ lo hi => (lo + hi) / 2

theorem midRng_inRange : RandSrc.InRange midRng := by
  intro i lo hi h
  constructor
  · show lo ≤ (lo + hi) / 2
    linarith
  · show (lo + hi) / 2 < hi
    linarith

/-- An arc oracle on which every arc call succeeds. -/
def okAll : ArcOracle := fun _ _ _ _ _ => true

/-- An arc oracle on which every arc call fails. -/
def failAll : ArcOracle := fun _ _ _ _ _ => false

/-- A concrete ball used in witnesses. -/
def sampleBall : Ball :=
  { position := { x := 3, y := 1 }
    direction := { x := 1/2, y := 0 }
    speed := 10
    size := 50
    is_inverse := true
    color := "c" }

/-- A concrete app state used in witnesses. -/
def sampleApp : App :=
  { window_x := 5, window_y := 5, initial_n_balls := 10, balls := [sampleBall] }

/-- `sampleApp` with a different initial count (the motion update must not
depend on it). -/
def sampleApp2 : App := { sampleApp with initial_n_balls := 99 }

/-- C1: for a ball with `is_inverse = true`, the motion update adds
`direction * speed` component-wise, then per axis: if the new coordinate
is `< 0` or exceeds the surface extent, it subtracts `direction` (not
`direction * speed`) on that axis only and negates `direction` on that
axis; in particular a ball with `direction = (0.5, 0)`, `speed = 10`,
`position.x = width - 2` ends the tick with `direction.x = -0.5` and
`position.x = width + 2.5`. -/
theorem moves_inverse_reflection :
    (∀ (wx wy : ℕ) (b : Ball), b.is_inverse = true →
      movesBall wx wy b =
        { position :=
            { x := if b.position.x + b.direction.x * b.speed < 0 ∨
                      b.position.x + b.direction.x * b.speed > (wx : ℚ) then
                     b.position.x + b.direction.x * b.speed - b.direction.x
                   else b.position.x + b.direction.x * b.speed
              y := if b.position.y + b.direction.y * b.speed < 0 ∨
                      b.position.y + b.direction.y * b.speed > (wy : ℚ) then
                     b.position.y + b.direction.y * b.speed - b.direction.y
                   else b.position.y + b.direction.y * b.speed }
          direction :=
            { x := if b.position.x + b.direction.x * b.speed < 0 ∨
                      b.position.x + b.direction.x * b.speed > (wx : ℚ) then
                     -b.direction.x
                   else b.direction.x
              y := if b.position.y + b.direction.y * b.speed < 0 ∨
                      b.position.y + b.direction.y * b.speed > (wy : ℚ) then
                     -b.direction.y
                   else b.direction.y }
          speed := b.speed
          size := b.size
          is_inverse := b.is_inverse
          color := b.color }) ∧
    (∀ (wx wy : ℕ) (py sz : ℚ) (c : String),
      (movesBall wx wy
          { position := { x := (wx : ℚ) - 2, y := py }
            direction := { x := 1/2, y := 0 }
            speed := 10, size := sz, is_inverse := true, color := c }).direction.x
        = -(1/2) ∧
      (movesBall wx wy
          { position := { x := (wx : ℚ) - 2, y := py }
            direction := { x := 1/2, y := 0 }
            speed := 10, size := sz, is_inverse := true, color := c }).position.x
        = (wx : ℚ) + 5/2) := by
  constructor
  · intro wx wy b hb
    simp only [movesBall, hb, if_true]
  · intro wx wy py sz c
    have hx : ¬ ((wx : ℚ) - 2 + 1/2 * 10 < 0) := by
      have : (0 : ℚ) ≤ (wx : ℚ) := Nat.cast_nonneg wx
      linarith
    have hx' : (wx : ℚ) - 2 + 1/2 * 10 > (wx : ℚ) := by linarith
    simp only [movesBall, if_true]
    rw [if_pos (Or.inr hx'), if_pos (Or.inr hx')]
    constructor
    · rfl
    · show (wx : ℚ) - 2 + 1/2 * 10 - 1/2 = (wx : ℚ) + 5/2
      ring

/-- Witness for C1 at the concrete ball `sampleBall` on a 5×5 surface. -/
theorem moves_inverse_reflection_witness :
    sampleBall.is_inverse = true ∧
    movesBall 5 5 sampleBall =
      { position := { x := 15/2, y := 1 }
        direction := { x := -(1/2), y := 0 }
        speed := 10, size := 50, is_inverse := true, color := "c" } :=
  ⟨rfl, by
    rw [moves_inverse_reflection.1 5 5 sampleBall rfl]
    norm_num [sampleBall]⟩

/-- C2: for a ball with `is_inverse = false`, the motion update adds
`direction * speed` component-wise and performs no boundary check at all:
direction and out-of-bounds position are left alone; in particular a ball
with direction `(1,0)`, speed `5`, starting at `x = width - 1` has
`position.x = width + 4` after one tick. -/
theorem moves_noninverse_drift :
    (∀ (wx wy : ℕ) (b : Ball), b.is_inverse = false →
      movesBall wx wy b =
        { b with position :=
            { x := b.position.x + b.direction.x * b.speed
              y := b.position.y + b.direction.y * b.speed } }) ∧
    (∀ (wx wy : ℕ) (py sz : ℚ) (c : String),
      (movesBall wx wy
          { position := { x := (wx : ℚ) - 1, y := py }
            direction := { x := 1, y := 0 }
            speed := 5, size := sz, is_inverse := false, color := c }).position.x
        = (wx : ℚ) + 4 ∧
      (movesBall wx wy
          { position := { x := (wx : ℚ) - 1, y := py }
            direction := { x := 1, y := 0 }
            speed := 5, size := sz, is_inverse := false, color := c }).direction
        = { x := 1, y := 0 }) := by
  constructor
  · intro wx wy b hb
    simp only [movesBall, hb, Bool.false_eq_true, if_false]
  · intro wx wy py sz c
    constructor
    · show (wx : ℚ) - 1 + 1 * 5 = (wx : ℚ) + 4
      ring
    · rfl

/-- Witness for C2 at a concrete non-inverse ball on a 5×5 surface. -/
theorem moves_noninverse_drift_witness :
    ({ sampleBall with is_inverse := false } : Ball).is_inverse = false ∧
    movesBall 5 5 { sampleBall with is_inverse := false } =
      { position := { x := 8, y := 1 }
        direction := { x := 1/2, y := 0 }
        speed := 10, size := 50, is_inverse := false, color := "c" } :=
  ⟨rfl, by
    rw [moves_noninverse_drift.1 5 5 { sampleBall with is_inverse := false } rfl]
    norm_num [sampleBall]⟩

/-- C10: the motion update is deterministic — it reads only the ball
collection and the surface dimensions, so two app states agreeing on
those produce equal ball collections (no random source is consulted). -/
theorem moves_deterministic (a b : App)
    (hb : a.balls = b.balls) (hx : a.window_x = b.window_x)
    (hy : a.window_y = b.window_y) :
    a.moves.balls = b.moves.balls := by
  simp only [App.moves, hb, hx, hy]

/-- Witness for C10: two apps differing only in `initial_n_balls` move
their (equal) balls identically. -/
theorem moves_deterministic_witness :
    sampleApp.balls = sampleApp2.balls ∧
    sampleApp.window_x = sampleApp2.window_x ∧
    sampleApp.window_y = sampleApp2.window_y ∧
    sampleApp.moves.balls = sampleApp2.moves.balls :=
  ⟨rfl, rfl, rfl, moves_deterministic sampleApp sampleApp2 rfl rfl rfl⟩

/-- C3: assuming the random source returns a value in `[lo, hi)` for every
requested nonempty range, every generated ball has `position` in
`[0, width) × [0, height)`, `direction` components in `[-0.5, 0.5]`,
`speed` in `[5, 10)`, `size` in `[50, 100)`, and its color is built from
R, G, B samples in `[8, 248)` and an alpha sample in `[0.5, 1.0)`. -/
theorem generate_ball_ranges (rng : RandSrc) (hr : rng.InRange) (wx wy : ℕ)
    (hwx : 0 < wx) (hwy : 0 < wy) (k : ℕ) :
    (0 ≤ (generate_ball rng k wx wy).position.x ∧
      (generate_ball rng k wx wy).position.x < (wx : ℚ)) ∧
    (0 ≤ (generate_ball rng k wx wy).position.y ∧
      (generate_ball rng k wx wy).position.y < (wy : ℚ)) ∧
    (-(1/2) ≤ (generate_ball rng k wx wy).direction.x ∧
      (generate_ball rng k wx wy).direction.x ≤ 1/2) ∧
    (-(1/2) ≤ (generate_ball rng k wx wy).direction.y ∧
      (generate_ball rng k wx wy).direction.y ≤ 1/2) ∧
    (5 ≤ (generate_ball rng k wx wy).speed ∧
      (generate_ball rng k wx wy).speed < 10) ∧
    (50 ≤ (generate_ball rng k wx wy).size ∧
      (generate_ball rng k wx wy).size < 100) ∧
    (generate_ball rng k wx wy).color = ball_color rng (k + 7) ∧
    (8 ≤ rng (k + 7) 8 248 ∧ rng (k + 7) 8 248 < 248) ∧
    (8 ≤ rng (k + 8) 8 248 ∧ rng (k + 8) 8 248 < 248) ∧
    (8 ≤ rng (k + 9) 8 248 ∧ rng (k + 9) 8 248 < 248) ∧
    (1/2 ≤ rng (k + 10) (1/2) 1 ∧ rng (k + 10) (1/2) 1 < 1) := by
  have hwx' : (0 : ℚ) < (wx : ℚ) := by exact_mod_cast hwx
  have hwy' : (0 : ℚ) < (wy : ℚ) := by exact_mod_cast hwy
  have hdx := hr (k + 2) (-(1/2)) (1/2) (by norm_num)
  have hdy := hr (k + 3) (-(1/2)) (1/2) (by norm_num)
  refine ⟨hr k 0 (wx : ℚ) hwx', hr (k + 1) 0 (wy : ℚ) hwy',
    ⟨hdx.1, le_of_lt hdx.2⟩, ⟨hdy.1, le_of_lt hdy.2⟩,
    hr (k + 4) 5 10 (by norm_num), hr (k + 5) 50 100 (by norm_num), rfl,
    hr (k + 7) 8 248 (by norm_num), hr (k + 8) 8 248 (by norm_num),
    hr (k + 9) 8 248 (by norm_num), hr (k + 10) (1/2) 1 (by norm_num)⟩

/-- Witness for C3 at the midpoint random source on a 100×100 surface. -/
theorem generate_ball_ranges_witness :
    (0 ≤ (generate_ball midRng 0 100 100).position.x ∧
      (generate_ball midRng 0 100 100).position.x < ((100 : ℕ) : ℚ)) ∧
    (0 ≤ (generate_ball midRng 0 100 100).position.y ∧
      (generate_ball midRng 0 100 100).position.y < ((100 : ℕ) : ℚ)) ∧
    (-(1/2) ≤ (generate_ball midRng 0 100 100).direction.x ∧
      (generate_ball midRng 0 100 100).direction.x ≤ 1/2) ∧
    (-(1/2) ≤ (generate_ball midRng 0 100 100).direction.y ∧
      (generate_ball midRng 0 100 100).direction.y ≤ 1/2) ∧
    (5 ≤ (generate_ball midRng 0 100 100).speed ∧
      (generate_ball midRng 0 100 100).speed < 10) ∧
    (50 ≤ (generate_ball midRng 0 100 100).size ∧
      (generate_ball midRng 0 100 100).size < 100) ∧
    (generate_ball midRng 0 100 100).color = ball_color midRng (0 + 7) ∧
    (8 ≤ midRng (0 + 7) 8 248 ∧ midRng (0 + 7) 8 248 < 248) ∧
    (8 ≤ midRng (0 + 8) 8 248 ∧ midRng (0 + 8) 8 248 < 248) ∧
    (8 ≤ midRng (0 + 9) 8 248 ∧ midRng (0 + 9) 8 248 < 248) ∧
    (1/2 ≤ midRng (0 + 10) (1/2) 1 ∧ midRng (0 + 10) (1/2) 1 < 1) :=
  generate_ball_ranges midRng midRng_inRange 100 100 (by norm_num) (by norm_num) 0

/-- C4: one tick performs the motion update once, then the render pass on
the updated state, and returns `true` exactly when no drawing call on the
surface fails. -/
theorem on_animation_frame_spec (arcOk : ArcOracle) (app : App) :
    (app.on_animation_frame arcOk).1 = app.moves ∧
    (app.on_animation_frame arcOk).2.1 = (app.moves.render arcOk).1 ∧
    ((app.on_animation_frame arcOk).2.2 = some true ↔
      (app.moves.render arcOk).2 = true) := by
  refine ⟨rfl, rfl, ?_⟩
  show (if (app.moves.render arcOk).2 then some true else none) = some true ↔ _
  cases h : (app.moves.render arcOk).2 <;> simp [h]

/-- C5: `init` leaves the collection with exactly `initial_n_balls` balls
regardless of its prior contents, re-running it again yields
`initial_n_balls` balls again, and a freshly constructed app has
`initial_n_balls = 10`. -/
theorem init_ball_count :
    (∀ (rng : RandSrc) (app : App),
      (app.init rng).balls.length = app.initial_n_balls) ∧
    (∀ (rng1 rng2 : RandSrc) (app : App),
      ((app.init rng1).init rng2).balls.length = app.initial_n_balls) ∧
    (∀ (cid : String) (x y : ℕ),
      (App.new { canvas_id := cid, window_x := some x, window_y := some y }).map
          (fun a => a.initial_n_balls) = some 10) := by
  refine ⟨?_, ?_, ?_⟩
  · intro rng app
    simp [App.init]
  · intro rng1 rng2 app
    simp [App.init]
  · intro cid x y
    rfl

/-- C8: a tick changes at most `position` and `direction`: the per-ball
`speed`, `size`, `is_inverse` and `color` projections and the number of
balls are the same before and after, as are the surface dimensions and
the configured count. -/
theorem tick_preserves_static_fields (arcOk : ArcOracle) (app : App) :
    (app.on_animation_frame arcOk).1.balls.length = app.balls.length ∧
    (app.on_animation_frame arcOk).1.balls.map Ball.speed =
      app.balls.map Ball.speed ∧
    (app.on_animation_frame arcOk).1.balls.map Ball.size =
      app.balls.map Ball.size ∧
    (app.on_animation_frame arcOk).1.balls.map Ball.is_inverse =
      app.balls.map Ball.is_inverse ∧
    (app.on_animation_frame arcOk).1.balls.map Ball.color =
      app.balls.map Ball.color ∧
    (app.on_animation_frame arcOk).1.window_x = app.window_x ∧
    (app.on_animation_frame arcOk).1.window_y = app.window_y ∧
    (app.on_animation_frame arcOk).1.initial_n_balls = app.initial_n_balls := by
  have hb : (app.on_animation_frame arcOk).1.balls =
      app.balls.map (movesBall app.window_x app.window_y) := rfl
  have hfield : ∀ b : Ball,
      (movesBall app.window_x app.window_y b).speed = b.speed ∧
      (movesBall app.window_x app.window_y b).size = b.size ∧
      (movesBall app.window_x app.window_y b).is_inverse = b.is_inverse ∧
      (movesBall app.window_x app.window_y b).color = b.color := by
    intro b
    simp only [movesBall]
    split <;> exact ⟨rfl, rfl, rfl, rfl⟩
  refine ⟨by simp [hb], ?_, ?_, ?_, ?_, rfl, rfl, rfl⟩ <;>
    · rw [hb, List.map_map]
      apply List.map_congr_left
      intro b _
      simp [Function.comp, hfield b]

/-- C9: constructing an `App` with a missing `width` or `height` option
fails instead of producing an `App`; when both are present the produced
dimensions are exactly the given ones (no default is substituted). -/
theorem new_requires_dimensions :
    (∀ opts : AppOptions,
      opts.window_x = none ∨ opts.window_y = none → App.new opts = none) ∧
    (∀ (cid : String) (x y : ℕ),
      App.new { canvas_id := cid, window_x := some x, window_y := some y } =
        some { window_x := x, window_y := y, initial_n_balls := 10,
               balls := [] }) := by
  constructor
  · intro opts h
    unfold App.new
    rcases h with h | h
    · rw [h]
    · rw [h]
      cases opts.window_x <;> rfl
  · intro cid x y
    rfl

/-- Witness for C9: construction with a missing width fails. -/
theorem new_requires_dimensions_witness :
    App.new { canvas_id := "canvas", window_x := none, window_y := some 5 } =
      none :=
  new_requires_dimensions.1
    { canvas_id := "canvas", window_x := none, window_y := some 5 }
    (Or.inl rfl)

/-- The four commands a successful ball draw issues. -/
def ballCmds (b : Ball) : List Cmd :=
  [Cmd.beginPath, Cmd.arc b.position.x b.position.y b.size 0 (pi64 * 2),
   Cmd.setFillStyle b.color, Cmd.fill]

theorem render_balls_ok_trace (arcOk : ArcOracle) (balls : List Ball)
    (h : (render_balls arcOk balls).2 = true) :
    (render_balls arcOk balls).1 = (balls.map ballCmds).flatten := by
  induction balls with
  | nil => rfl
  | cons b rest ih =>
    by_cases hb : arcOk b.position.x b.position.y b.size 0 (pi64 * 2) = true
    · have h' : (render_balls arcOk rest).2 = true := by
        simpa [render_balls, hb] using h
      simp [render_balls, hb, ballCmds, ih h']
    · simp [render_balls, hb] at h

theorem render_balls_no_restore (arcOk : ArcOracle) (balls : List Ball) :
    Cmd.restore ∉ (render_balls arcOk balls).1 := by
  induction balls with
  | nil => simp [render_balls]
  | cons b rest ih =>
    by_cases hb : arcOk b.position.x b.position.y b.size 0 (pi64 * 2) = true
    · simp [render_balls, hb, ih]
    · simp [render_balls, hb]

/-- An app with an empty ball collection, used as a concrete input. -/
def emptyApp : App :=
  { window_x := 1, window_y := 1, initial_n_balls := 10, balls := [] }

/-- Counterexample to C6 as stated: the background fill style the code
sets is the string `"rgb(0, 0, 0, 1)"`, not `"rgba(0,0,0,1)"` — on a
concrete render pass no command carries the claimed string. -/
theorem render_bg_string_counterexample :
    Cmd.setFillStyle "rgba(0,0,0,1)" ∉ (emptyApp.render okAll).1 ∧
    bg_color ≠ "rgba(0,0,0,1)" := by
  constructor
  · show Cmd.setFillStyle "rgba(0,0,0,1)" ∉
      Cmd.save :: render_bg emptyApp ++ [] ++ [Cmd.restore]
    simp [render_bg, bg_color]
  · decide

/-- C6 (amended): in every successful render pass the whole surface
rectangle is filled with the fixed background color string
`"rgb(0, 0, 0, 1)"` before any ball is drawn, and then each ball is drawn
in collection order as a filled full `0..2π` circle at its position with
radius `size` in the ball's own color. -/
theorem render_pass_order (arcOk : ArcOracle) (app : App)
    (hok : (app.render arcOk).2 = true) :
    (app.render arcOk).1 =
      Cmd.save :: Cmd.setFillStyle bg_color ::
        Cmd.fillRect 0 0 (app.window_x : ℚ) (app.window_y : ℚ) ::
        ((app.balls.map ballCmds).flatten ++ [Cmd.restore]) ∧
    bg_color = "rgb(0, 0, 0, 1)" := by
  refine ⟨?_, rfl⟩
  cases hrb : (render_balls arcOk app.balls).2 with
  | false =>
    rw [App.render] at hok
    simp [hrb] at hok
  | true =>
    show (App.render arcOk app).1 = _
    rw [App.render]
    simp only [hrb, if_true]
    rw [render_balls_ok_trace arcOk app.balls hrb]
    simp [render_bg]

/-- Witness for C6 at a concrete one-ball app on which every arc call
succeeds. -/
theorem render_pass_order_witness :
    ((sampleApp.render okAll).1 =
      Cmd.save :: Cmd.setFillStyle bg_color ::
        Cmd.fillRect 0 0 (sampleApp.window_x : ℚ) (sampleApp.window_y : ℚ) ::
        ((sampleApp.balls.map ballCmds).flatten ++ [Cmd.restore]) ∧
      bg_color = "rgb(0, 0, 0, 1)") ∧
    (sampleApp.render okAll).2 = true :=
  ⟨render_pass_order okAll sampleApp rfl, rfl⟩

/-- Counterexample to C7 as stated: on a render pass in which the arc
call fails, the pass aborts without ever issuing `restore` — the saved
drawing-surface state is not restored on that exit path. -/
theorem render_restore_counterexample :
    (sampleApp.render failAll).2 = false ∧
    Cmd.restore ∉ (sampleApp.render failAll).1 := by
  refine ⟨rfl, ?_⟩
  show Cmd.restore ∉
    Cmd.save :: render_bg sampleApp ++ [Cmd.beginPath,
      Cmd.arc sampleBall.position.x sampleBall.position.y sampleBall.size 0
        (pi64 * 2)]
  simp [render_bg]

/-- C7 (amended): the drawing-surface state saved at the start of the
render pass is restored at the end of the pass on the successful exit
path; when a drawing call fails, the failure propagates without the
saved state being restored. -/
theorem render_restore_discipline (arcOk : ArcOracle) (app : App) :
    ((app.render arcOk).2 = true →
      (app.render arcOk).1.getLast? = some Cmd.restore) ∧
    ((app.render arcOk).2 = false →
      Cmd.restore ∉ (app.render arcOk).1) := by
  cases hrb : (render_balls arcOk app.balls).2 with
  | true =>
    refine ⟨fun _ => ?_, fun hc => by rw [App.render] at hc; simp [hrb] at hc⟩
    show (App.render arcOk app).1.getLast? = some Cmd.restore
    rw [App.render]
    simp only [hrb, if_true]
    rw [show Cmd.save :: render_bg app ++ (render_balls arcOk app.balls).1 ++
          [Cmd.restore] =
        (Cmd.save :: render_bg app ++ (render_balls arcOk app.balls).1) ++
          [Cmd.restore] by simp]
    exact List.getLast?_concat _
  | false =>
    refine ⟨fun hc => by rw [App.render] at hc; simp [hrb] at hc, fun _ => ?_⟩
    show Cmd.restore ∉ (App.render arcOk app).1
    rw [App.render]
    simp only [hrb, if_false]
    simp [render_bg, render_balls_no_restore arcOk app.balls]

/-- Witness for C7 at a concrete one-ball app: on success the last
command is `restore`, and the failing path of the same app is exercised
by the counterexample input. -/
theorem render_restore_discipline_witness :
    (sampleApp.render okAll).2 = true ∧
    (sampleApp.render okAll).1.getLast? = some Cmd.restore :=
  ⟨rfl, (render_restore_discipline okAll sampleApp).1 rfl⟩
